import Mathlib

/-!
Shallow embedding of the mirascope provider-abstraction call pipeline and
proofs of the spec claims about it.  Each definition mirrors one Python
function or class of the repository; the file ends with one theorem per
claim (plus witnesses and counterexamples).
-/

namespace Mirascope

/-! ### Call factory (`mirascope/core/base/_call_factory.py`) -/

/-- Which of the four factory-produced decorators `base_call` returns
(`structured_stream_factory`, `extract_factory`, `stream_factory`,
`create_factory`). -/
inductive DecoratorKind
  | structuredStreamDecorator
  | extractDecorator
  | streamDecorator
  | createDecorator
deriving DecidableEq, Repr

/-- Embedding of `base_call` (lines 234-321 of `_call_factory.py`), restricted
to the arguments its control flow inspects.  `outputParser` and
`responseModel` keep their Python `None`-vs-value distinction as `Option`
(a callable / a class is always truthy in Python, so `if output_parser:` is
`isSome`).  The `ValueError` on line 261 is the `.error` branch; every other
path returns one of the four decorator partials. -/
def base_call {α β : Type} (stream : Bool) (outputParser : Option α)
    (responseModel : Option β) : Except String DecoratorKind :=
  if stream && outputParser.isSome then
    .error "Cannot use `output_parser` with `stream=True`."
  else if responseModel.isSome then
    if stream then .ok .structuredStreamDecorator
    else .ok .extractDecorator
  else if stream then .ok .streamDecorator
  else .ok .createDecorator

/-! ### Legacy chat wrapper (`mirascope/chat/types.py`) -/

/-- The `function` payload of a provider tool call (`FunctionCall`). -/
structure OAIFunction where
  name : String
  arguments : String
deriving DecidableEq, Repr

/-- A provider-reported tool call (`ChatCompletionMessageToolCall`). -/
structure OAIToolCall where
  callId : String
  function : OAIFunction
deriving DecidableEq, Repr

/-- A declared tool type; `name` is the Python class `__name__` that the
provider must echo back for dispatch, and `validArgs` is whether a raw
argument string parses and validates against this tool's schema (see
`OAIToolType.from_tool_call`). -/
structure OAIToolType where
  name : String
  validArgs : String → Bool

/-- The result of a successful `tool_type.from_tool_call(tool_call)`: the
tool type paired with the concrete call it was constructed from (§3
`ResolvedToolCall`). -/
structure OAIResolvedTool where
  tool_type : OAIToolType
  tool_call : OAIToolCall

/-- Modelled from the spec: `OpenAITool.from_tool_call` lives in
`mirascope/chat/tools.py`, which is not among the files under study.  Per
§4.2 `validate_and_bind`, resolution parses the call's raw `arguments` as
JSON and validates them against the tool's `parameter_schema`, failing
with a validation error on parse failure or schema mismatch; the tool
type's `validArgs` field abstracts that check, and success pairs the
definition with the call. -/
def OAIToolType.from_tool_call (tt : OAIToolType) (tc : OAIToolCall) :
    Except String OAIResolvedTool :=
  if tt.validArgs tc.function.arguments then .ok ⟨tt, tc⟩
  else .error "ValidationError"

/-- `ChatCompletionMessage`: content plus optional tool calls. -/
structure ChatCompletionMessage where
  content : Option String
  tool_calls : Option (List OAIToolCall)
deriving DecidableEq, Repr

/-- One `Choice` of a completed chat completion. -/
structure ChatChoice where
  message : ChatCompletionMessage
deriving DecidableEq, Repr

/-- The raw `ChatCompletion`: its list of choices. -/
structure ChatCompletion where
  choices : List ChatChoice
deriving DecidableEq, Repr

/-- The `OpenAIChatCompletion` wrapper: the raw completion plus the active
tool-type list (`Optional[list[Type[OpenAITool]]]`). -/
structure OpenAIChatCompletion where
  completion : ChatCompletion
  tool_types : Option (List OAIToolType)

/-- Python truthiness of an `Optional[list]`: `None` and `[]` are both falsy. -/
def optListTruthy {α : Type} : Option (List α) → Bool
  | none => false
  | some l => !l.isEmpty

/-- `self.message`: `self.completion.choices[0].message`; raises `IndexError`
when `choices` is empty. -/
def OpenAIChatCompletion.message (c : OpenAIChatCompletion) :
    Except String ChatCompletionMessage :=
  match c.completion.choices.head? with
  | some ch => .ok ch.message
  | none => .error "IndexError: list index out of range"

/-- `self.tool_calls`: `self.message.tool_calls`. -/
def OpenAIChatCompletion.toolCallsAcc (c : OpenAIChatCompletion) :
    Except String (Option (List OAIToolCall)) :=
  (c.message).map (fun m => m.tool_calls)

/-- The inner `for tool_type in self.tool_types` loop with its `break`:
the first tool type whose class name equals the provider-reported function
name resolves the call via `from_tool_call`, whose validation failure
propagates (the `try ... except ValidationError: raise` on lines 63-66
re-raises unchanged); no match resolves nothing. -/
def extractLoopInner (tc : OAIToolCall) :
    List OAIToolType → Except String (Option OAIResolvedTool)
  | [] => .ok none
  | tt :: rest =>
    if tc.function.name == tt.name then
      match tt.from_tool_call tc with
      | .ok t => .ok (some t)
      | .error e => .error e
    else extractLoopInner tc rest

/-- The outer `for tool_call in self.tool_calls` loop of the `tools`
property: matched calls that validate are appended in provider order,
unmatched calls are skipped, and the first validation failure aborts the
loop with that error. -/
def extractLoop :
    List OAIToolCall → List OAIToolType → Except String (List OAIResolvedTool)
  | [], _ => .ok []
  | tc :: rest, tts =>
    match extractLoopInner tc tts with
    | .error e => .error e
    | .ok (some t) =>
      match extractLoop rest tts with
      | .error e => .error e
      | .ok l => .ok (t :: l)
    | .ok none => extractLoop rest tts

/-- The `tools` property (lines 49-70 of `chat/types.py`).  The guard
`if not self.tool_types or not self.tool_calls: return None` short-circuits:
`self.tool_calls` (which indexes `choices[0]`) is only evaluated when
`tool_types` is truthy.  A `ValidationError` raised by `from_tool_call` on
a name-matched call is re-raised unchanged and surfaces as the `.error`
branch. -/
def OpenAIChatCompletion.tools (c : OpenAIChatCompletion) :
    Except String (Option (List OAIResolvedTool)) :=
  if optListTruthy c.tool_types = false then .ok none
  else
    match c.toolCallsAcc with
    | .error e => .error e
    | .ok tcs =>
      if optListTruthy tcs = false then .ok none
      else
        match extractLoop (tcs.getD []) (c.tool_types.getD []) with
        | .error e => .error e
        | .ok l => .ok (some l)

/-- The `tool` property: the 0th resolved tool when `self.tools` is truthy
and non-empty, else `None`. -/
def OpenAIChatCompletion.tool (c : OpenAIChatCompletion) :
    Except String (Option OAIResolvedTool) :=
  match c.tools with
  | .error e => .error e
  | .ok (some (t :: _)) => .ok (some t)
  | .ok _ => .ok none

/-! ### Streaming chunk wrappers
(`mirascope/core/openai/call_response_chunk.py` and
`mirascope/core/cohere/call_response_chunk.py`) -/

/-- OpenAI `ChoiceDelta`: the incremental content of one chunk choice. -/
structure OAIChoiceDelta where
  content : Option String
deriving DecidableEq, Repr

/-- OpenAI chunk `Choice`: a delta plus an optional finish reason. -/
structure OAIChunkChoice where
  delta : OAIChoiceDelta
  finish_reason : Option String
deriving DecidableEq, Repr

/-- OpenAI `CompletionUsage`. -/
structure CompletionUsage where
  prompt_tokens : Int
  completion_tokens : Int
  total_tokens : Int
deriving DecidableEq, Repr

/-- OpenAI `ChatCompletionChunk` (`model` and `id` are required fields of the
SDK type; `usage` may be absent until the terminal chunk). -/
structure ChatCompletionChunk where
  chunkId : String
  choices : List OAIChunkChoice
  model : String
  usage : Option CompletionUsage
deriving DecidableEq, Repr

/-- The `OpenAICallResponseChunk` wrapper around one raw chunk. -/
structure OpenAICallResponseChunk where
  chunk : ChatCompletionChunk
deriving DecidableEq, Repr

/-- `content` (lines 44-50): the 0th choice delta's content, or `""` when
there are no choices or the delta content is `None`/empty (Python
truthiness: `delta.content if delta is not None and delta.content else ""`). -/
def OpenAICallResponseChunk.content (c : OpenAICallResponseChunk) : String :=
  match c.chunk.choices.head? with
  | some ch =>
    match ch.delta.content with
    | some s => if s == "" then "" else s
    | none => ""
  | none => ""

/-- `finish_reasons` (lines 52-59): the truthy finish reasons of all choices. -/
def OpenAICallResponseChunk.finish_reasons (c : OpenAICallResponseChunk) :
    List String :=
  c.chunk.choices.filterMap (fun ch =>
    match ch.finish_reason with
    | some fr => if fr == "" then none else some fr
    | none => none)

/-- `model` (lines 61-64): the chunk's model name (a required SDK field). -/
def OpenAICallResponseChunk.model (c : OpenAICallResponseChunk) : String :=
  c.chunk.model

/-- `id` (lines 66-69): the chunk's id (a required SDK field). -/
def OpenAICallResponseChunk.respId (c : OpenAICallResponseChunk) : String :=
  c.chunk.chunkId

/-- `usage` (lines 71-76): the chunk's usage when present (the attribute
always exists on the SDK type and a usage object is always truthy), else
`None`. -/
def OpenAICallResponseChunk.usage (c : OpenAICallResponseChunk) :
    Option CompletionUsage :=
  c.chunk.usage

/-- `input_tokens` (lines 78-83): `usage.prompt_tokens` when usage is
present, else `None`. -/
def OpenAICallResponseChunk.input_tokens (c : OpenAICallResponseChunk) :
    Option Int :=
  match c.usage with
  | some u => some u.prompt_tokens
  | none => none

/-- `output_tokens` (lines 85-90): `usage.completion_tokens` when usage is
present, else `None`. -/
def OpenAICallResponseChunk.output_tokens (c : OpenAICallResponseChunk) :
    Option Int :=
  match c.usage with
  | some u => some u.completion_tokens
  | none => none

/-- Cohere `ApiMetaBilledUnits` (token counts may individually be absent). -/
structure ApiMetaBilledUnits where
  input_tokens : Option Int
  output_tokens : Option Int
deriving DecidableEq, Repr

/-- Cohere `ApiMeta`. -/
structure CohereApiMeta where
  billed_units : Option ApiMetaBilledUnits
deriving DecidableEq, Repr

/-- The `response` carried by a Cohere `StreamedChatResponse_StreamEnd`. -/
structure CohereNonStreamedResponse where
  generation_id : Option String
  meta : Option CohereApiMeta
deriving DecidableEq, Repr

/-- The Cohere `StreamedChatResponse` union, restricted to the variants the
wrapper dispatches on (`StreamStart`, `TextGeneration`, `StreamEnd`); every
other union member behaves like `otherEvent`. -/
inductive StreamedChatResponse
  | streamStart (generation_id : Option String)
  | textGeneration (text : String)
  | streamEnd (finish_reason : String) (response : CohereNonStreamedResponse)
  | otherEvent
deriving DecidableEq, Repr

/-- The `CohereCallResponseChunk` wrapper around one raw event. -/
structure CohereCallResponseChunk where
  chunk : StreamedChatResponse
deriving DecidableEq, Repr

/-- `content` (lines 48-53): the generated text for a `TextGeneration`
event, `""` otherwise. -/
def CohereCallResponseChunk.content (c : CohereCallResponseChunk) : String :=
  match c.chunk with
  | .textGeneration t => t
  | _ => ""

/-- `finish_reasons` (lines 55-60): the singleton finish reason for a
`StreamEnd` event, `None` otherwise. -/
def CohereCallResponseChunk.finish_reasons (c : CohereCallResponseChunk) :
    Option (List String) :=
  match c.chunk with
  | .streamEnd fr _ => some [fr]
  | _ => none

/-- `model` (lines 62-68): Cohere does not return a model, so always `None`. -/
def CohereCallResponseChunk.model (_ : CohereCallResponseChunk) :
    Option String :=
  none

/-- `id` (lines 70-77): the generation id from a `StreamStart` or
`StreamEnd` event, `None` otherwise. -/
def CohereCallResponseChunk.respId (c : CohereCallResponseChunk) :
    Option String :=
  match c.chunk with
  | .streamStart gid => gid
  | .streamEnd _ resp => resp.generation_id
  | _ => none

/-- `usage` (lines 79-87): the billed units of a `StreamEnd` event whose
response carries meta, `None` otherwise. -/
def CohereCallResponseChunk.usage (c : CohereCallResponseChunk) :
    Option ApiMetaBilledUnits :=
  match c.chunk with
  | .streamEnd _ resp =>
    match resp.meta with
    | some m => m.billed_units
    | none => none
  | _ => none

/-- `input_tokens` (lines 89-94). -/
def CohereCallResponseChunk.input_tokens (c : CohereCallResponseChunk) :
    Option Int :=
  match c.usage with
  | some u => u.input_tokens
  | none => none

/-- `output_tokens` (lines 96-101). -/
def CohereCallResponseChunk.output_tokens (c : CohereCallResponseChunk) :
    Option Int :=
  match c.usage with
  | some u => u.output_tokens
  | none => none

/-! ### Mistral message conversion
(`mirascope/core/mistral/_utils/_convert_message_params.py`) -/

/-- A content part of a neutral `BaseMessageParam` (tagged by its `type`
field; only `text` parts are accepted by the Mistral converter). -/
inductive ContentPart
  | text (value : String)
  | image (data : String)
deriving DecidableEq, Repr

/-- The `content` of a neutral message: a plain string or a part list. -/
inductive MessageContent
  | str (s : String)
  | parts (ps : List ContentPart)
deriving DecidableEq, Repr

/-- A neutral `BaseMessageParam`: role plus content. -/
structure BaseMessageParam where
  role : String
  content : MessageContent
deriving DecidableEq, Repr

/-- A Mistral-native message (`AssistantMessage | SystemMessage |
ToolMessage | UserMessage`) after conversion: role plus string content. -/
structure MistralMessage where
  role : String
  content : String
deriving DecidableEq, Repr

/-- An input to the Mistral converter: either a Mistral-native message that
passes through unchanged, or a neutral `BaseMessageParam`. -/
inductive MistralInputMessage
  | native (m : MistralMessage)
  | base (m : BaseMessageParam)
deriving DecidableEq, Repr

/-- One iteration of the `convert_message_params` loop (lines 19-34):
native messages pass through; string content is repackaged unchanged; a part
list must be exactly one text part, otherwise `ValueError`. -/
def convertOneMessageParam : MistralInputMessage → Except String MistralMessage
  | .native m => .ok m
  | .base m =>
    match m.content with
    | .str s => .ok ⟨m.role, s⟩
    | .parts ps =>
      match ps with
      | [.text t] => .ok ⟨m.role, t⟩
      | _ => .error "Mistral currently only supports text parts."

/-- `convert_message_params` (lines 13-35): converts each message in order,
raising at the first unsupported one. -/
def convert_message_params :
    List MistralInputMessage → Except String (List MistralMessage)
  | [] => .ok []
  | m :: rest =>
    match convertOneMessageParam m with
    | .error e => .error e
    | .ok c =>
      match convert_message_params rest with
      | .error e => .error e
      | .ok cs => .ok (c :: cs)

/-! ### Mistral setup (`mirascope/core/mistral/_utils/_setup_call.py`) -/

/-- A Mistral tool type (enough to select the first for
`json_mode_content`). -/
structure MistralToolType where
  name : String
deriving DecidableEq, Repr

/-- The Mistral `call_kwargs` dict, restricted to the keys `setup_call`
touches; `none` models an absent key.  `tools` holds the provider tool
schemas converted by the base setup (their shape is irrelevant here). -/
structure MistralKwargs where
  tools : Option (List String)
  response_format : Option String
  tool_choice : Option String
  model : Option String
  messages : Option (List MistralMessage)
deriving DecidableEq, Repr

/-- The parts of the Mistral `setup_call` return value the claims are
about (the create function and prompt template are omitted: they do not
depend on the branches under study). -/
structure MistralSetupResult where
  messages : List MistralMessage
  tool_types : List MistralToolType
  kwargs : MistralKwargs
deriving DecidableEq, Repr

/-- Python's `str.strip()` on whitespace, as used by
`json_mode_content.strip()` (implemented over the character list so that
concrete instances evaluate). -/
def pyStrip (s : String) : String :=
  String.mk
    (((s.data.dropWhile Char.isWhitespace).reverse.dropWhile
      Char.isWhitespace).reverse)

/-- The json-mode injection step of the Mistral `setup_call` (lines
103-109): append the instruction to the last message's content when that
message's role is `user`, otherwise append a new stripped `UserMessage`;
`messages[-1]` on an empty list raises `IndexError`. -/
def mistralInjectJson (msgs : List MistralMessage) (jmc : String) :
    Except String (List MistralMessage) :=
  match msgs.getLast? with
  | none => .error "IndexError: list index out of range"
  | some last =>
    if last.role == "user" then
      .ok (msgs.dropLast ++ [⟨last.role, last.content ++ jmc⟩])
    else
      .ok (msgs ++ [⟨"user", pyStrip jmc⟩])

/-- Embedding of the Mistral `setup_call` (lines 74-124) up to the point the
request kwargs are finalized (client construction and the returned create
function, which follow all branches below, are not modelled).  `jmcFn`
stands for `_utils.json_mode_content`, whose source lives outside the files
under study; `setup_call` passes it `tool_types[0] if tool_types else None`
(a `None`/empty tool-type list is modelled as `[]`, which the source treats
identically everywhere it is read).  The `assert` on line 112 is the
`.error` branch of the extract path. -/
def mistral_setup_call (messageParams : List MistralInputMessage)
    (tool_types : List MistralToolType) (baseKwargs : MistralKwargs)
    (json_mode : Bool) (extract : Bool) (model : String)
    (jmcFn : Option MistralToolType → String) :
    Except String MistralSetupResult :=
  match convert_message_params messageParams with
  | .error e => .error e
  | .ok msgs =>
  if json_mode then
    let jmc := jmcFn tool_types.head?
    match mistralInjectJson msgs jmc with
    | .error e => .error e
    | .ok msgs' =>
      .ok ⟨msgs', tool_types,
        { baseKwargs with
          response_format := some "json_object", tools := none,
          model := some model, messages := some msgs' }⟩
  else if extract then
    if tool_types.isEmpty then
      .error "At least one tool must be provided for extraction."
    else
      .ok ⟨msgs, tool_types,
        { baseKwargs with
          tool_choice := some "any", model := some model,
          messages := some msgs }⟩
  else
    .ok ⟨msgs, tool_types,
      { baseKwargs with model := some model, messages := some msgs }⟩

/-! ### Vertex setup (`mirascope/core/vertex/_utils/_setup_call.py`) -/

/-- A Vertex tool type (enough for `tool_types[0]._name()`). -/
structure VertexToolType where
  name : String
deriving DecidableEq, Repr

/-- A Vertex `Content`: role plus part list (the parts' internal structure
is irrelevant to the branches under study). -/
structure VertexContent where
  role : String
  parts : List String
deriving DecidableEq, Repr

/-- The `generation_config` mapping, restricted to the key `setup_call`
writes. -/
structure VertexGenerationConfig where
  response_mime_type : Option String
deriving DecidableEq, Repr

/-- A Vertex `ToolConfig` (`function_calling_config`). -/
structure VertexToolConfig where
  mode : String
  allowed_function_names : List String
deriving DecidableEq, Repr

/-- The Vertex `call_kwargs` dict, restricted to the keys `setup_call`
touches; `none` models an absent key. -/
structure VertexKwargs where
  tools : Option (List String)
  generation_config : Option VertexGenerationConfig
  tool_config : Option VertexToolConfig
  contents : Option (List VertexContent)
deriving DecidableEq, Repr

/-- The parts of the Vertex `setup_call` return value the claims are about. -/
structure VertexSetupResult where
  messages : List VertexContent
  tool_types : List VertexToolType
  kwargs : VertexKwargs
deriving DecidableEq, Repr

/-- Embedding of the Vertex `setup_call` (lines 66-122) up to the point the
request kwargs are finalized.  The Vertex `convert_message_params` source is
outside the files under study, so the function takes the already-converted
`Content` list as input (exactly what lines 91-111 operate on).  In json
mode the instruction is appended to `messages[-1]["parts"]` regardless of
role (`IndexError` on an empty list); in extract mode the `assert` on line
102 is the `.error` branch and the tool config forces mode `any` allowing
only `tool_types[0]._name()`. -/
def vertex_setup_call (messages : List VertexContent)
    (tool_types : List VertexToolType) (baseKwargs : VertexKwargs)
    (json_mode : Bool) (extract : Bool)
    (jmcFn : Option VertexToolType → String) :
    Except String VertexSetupResult :=
  if json_mode then
    let gc := baseKwargs.generation_config.getD ⟨none⟩
    let gc := { gc with response_mime_type := some "application/json" }
    match messages.getLast? with
    | none => .error "IndexError: list index out of range"
    | some last =>
      let msgs' := messages.dropLast ++
        [⟨last.role, last.parts ++ [jmcFn tool_types.head?]⟩]
      .ok ⟨msgs', tool_types,
        { baseKwargs with
          generation_config := some gc, tools := none,
          contents := some msgs' }⟩
  else if extract then
    match tool_types with
    | [] => .error "At least one tool must be provided for extraction."
    | t :: _ =>
      .ok ⟨messages, tool_types,
        { baseKwargs with
          tool_config := some ⟨"any", [t.name]⟩,
          contents := some messages }⟩
  else
    .ok ⟨messages, tool_types, { baseKwargs with contents := some messages }⟩

/-! ### Mistral common-parameter conversion
(`mirascope/core/mistral/_utils/_convert_common_params.py`) -/

/-- `MISTRAL_PARAM_MAPPING` (lines 6-12). -/
def MISTRAL_PARAM_MAPPING : List (String × String) :=
  [("temperature", "temperature"), ("max_tokens", "max_tokens"),
   ("top_p", "top_p"), ("seed", "random_seed"), ("stop", "stop")]

/-- `convert_common_params` (lines 15-24): the dict comprehension keeps the
entries whose key appears in the mapping and whose value is not `None`,
renaming the key through the mapping.  The common-params dict is modelled as
an insertion-ordered association list; values are opaque (the source never
inspects them beyond `is not None`). -/
def convert_common_params {α : Type} (commonParams : List (String × Option α)) :
    List (String × α) :=
  commonParams.filterMap (fun kv =>
    match MISTRAL_PARAM_MAPPING.find? (fun p => p.1 == kv.1), kv.2 with
    | some p, some v => some (p.2, v)
    | _, _ => none)

/-! ### Stream coordinator, modelled from the spec -/

/-- Modelled from the spec: a completed tool call emitted by the Stream
Coordinator (the coordinator's source, `mirascope/core/base/stream.py`, is
not among the files under study; §3 `StreamState` and §4.6 describe it). -/
structure SpecToolCall where
  name : String
  arguments : String
deriving DecidableEq, Repr

/-- Modelled from the spec: one incremental chunk as §4.6 consumes it — a
`content_delta` plus the completed tool call (if any) the coordinator pairs
with this chunk once its argument stream is complete. -/
structure SpecChunk where
  content_delta : String
  tool_call : Option SpecToolCall
deriving DecidableEq, Repr

/-- Modelled from the spec: §3 `StreamState`, restricted to the fields the
accumulation claim is about. -/
structure SpecStreamState where
  accumulated_content : String
  completed_tool_calls : List SpecToolCall
deriving DecidableEq, Repr

/-- Modelled from the spec: the §4.6 Receiving step — append the chunk's
`content_delta` to `accumulated_content` and record its completed tool call. -/
def specStreamStep (st : SpecStreamState) (c : SpecChunk) : SpecStreamState :=
  { accumulated_content := st.accumulated_content ++ c.content_delta,
    completed_tool_calls := st.completed_tool_calls ++ c.tool_call.toList }

/-- Modelled from the spec: consuming a finite chunk sequence to exhaustion,
mutating the state once per chunk from the initial empty state. -/
def specConsume (chunks : List SpecChunk) : SpecStreamState :=
  chunks.foldl specStreamStep ⟨"", []⟩

/-- Modelled from the spec: the synthesized assistant message (§3 Message,
§4.6 Terminal). -/
structure SpecMessage where
  role : String
  content : String
  tool_calls : List SpecToolCall
deriving DecidableEq, Repr

/-- Modelled from the spec: the §4.6 Terminal step — the aggregate
assistant `message_param` combining the accumulated content and all
completed tool calls. -/
def specMessageParam (chunks : List SpecChunk) : SpecMessage :=
  let st := specConsume chunks
  ⟨"assistant", st.accumulated_content, st.completed_tool_calls⟩

/-! ### Helper lemmas -/

/-- The only `ValueError` the Mistral per-message converter can raise is the
text-parts one. -/
theorem convertOneMessageParam_error (m : MistralInputMessage) (e : String)
    (h : convertOneMessageParam m = .error e) :
    e = "Mistral currently only supports text parts." := by
  cases m with
  | native m => simp [convertOneMessageParam] at h
  | base m =>
    cases hc : m.content with
    | str s => simp [convertOneMessageParam, hc] at h
    | parts ps =>
      cases ps with
      | nil => simpa [convertOneMessageParam, hc] using h.symm
      | cons p rest =>
        cases p with
        | text t =>
          cases rest with
          | nil => simp [convertOneMessageParam, hc] at h
          | cons q qs => simpa [convertOneMessageParam, hc] using h.symm
        | image d => simpa [convertOneMessageParam, hc] using h.symm

/-! ### C1 -/

/-- C1: invoking `base_call` with `stream=True` and a non-`None`
`output_parser` raises the configuration `ValueError` immediately at
decoration time (it is the first statement of `base_call`, before any
factory is built or any network call could happen); every other combination
returns one of the four decorators without error. -/
theorem base_call_stream_output_parser_exclusion {α β : Type} (stream : Bool)
    (outputParser : Option α) (responseModel : Option β) :
    (stream = true → outputParser.isSome →
      base_call stream outputParser responseModel =
        Except.error "Cannot use `output_parser` with `stream=True`.") ∧
    ((stream = false ∨ outputParser = none) →
      ∃ k, base_call stream outputParser responseModel = Except.ok k) := by
  constructor
  · intro hs hp
    simp [base_call, hs, hp]
  · intro h
    cases stream <;> cases outputParser <;> cases responseModel <;>
      simp [base_call] <;> simp at h

/-- Witness for C1 at concrete inputs. -/
theorem base_call_stream_output_parser_exclusion_witness :
    base_call true (some ()) (none : Option Unit) =
      Except.error "Cannot use `output_parser` with `stream=True`." ∧
    ∃ k, base_call false (some ()) (none : Option Unit) = Except.ok k :=
  ⟨(base_call_stream_output_parser_exclusion true (some ()) none).1 rfl rfl,
   (base_call_stream_output_parser_exclusion false (some ()) none).2
     (Or.inl rfl)⟩

/-! ### C2 -/

/-- C2: for both providers whose `setup_call` is among the studied files
(Mistral and Vertex), a `json_mode=True` invocation that returns produces
request kwargs with the `tools` key absent (`call_kwargs.pop("tools",
None)`), whatever tool list the base setup had put there. -/
theorem setup_call_json_mode_drops_tools :
    (∀ (mps : List MistralInputMessage) (tts : List MistralToolType)
        (bk : MistralKwargs) (ex : Bool) (model : String)
        (jf : Option MistralToolType → String) (r : MistralSetupResult),
      mistral_setup_call mps tts bk true ex model jf = .ok r →
        r.kwargs.tools = none) ∧
    (∀ (msgs : List VertexContent) (tts : List VertexToolType)
        (bk : VertexKwargs) (ex : Bool)
        (jf : Option VertexToolType → String) (r : VertexSetupResult),
      vertex_setup_call msgs tts bk true ex jf = .ok r →
        r.kwargs.tools = none) := by
  constructor
  · intro mps tts bk ex model jf r h
    unfold mistral_setup_call at h
    cases hc : convert_message_params mps with
    | error e => simp [hc] at h
    | ok msgs =>
      cases hi : mistralInjectJson msgs (jf tts.head?) with
      | error e => simp [hc, hi] at h
      | ok msgs' =>
        simp only [hc, hi, if_true, Except.ok.injEq] at h
        subst h
        rfl
  · intro msgs tts bk ex jf r h
    unfold vertex_setup_call at h
    cases hl : msgs.getLast? with
    | none => simp [hl] at h
    | some last =>
      simp only [hl, if_true, Except.ok.injEq] at h
      subst h
      rfl

/-- The result of the C2 Mistral example invocation. -/
def mistralJsonExampleResult : MistralSetupResult :=
  ⟨[⟨"user", "hiJ"⟩], [],
    ⟨none, some "json_object", none, some "m", some [⟨"user", "hiJ"⟩]⟩⟩

/-- The result of the C2 Vertex example invocation. -/
def vertexJsonExampleResult : VertexSetupResult :=
  ⟨[⟨"user", ["hi", "J"]⟩], [],
    ⟨none, some ⟨some "application/json"⟩, none,
      some [⟨"user", ["hi", "J"]⟩]⟩⟩

/-- Witness for C2 at concrete inputs: both providers, `json_mode=True`,
base kwargs carrying a non-empty tool list that gets dropped. -/
theorem setup_call_json_mode_drops_tools_witness :
    (mistral_setup_call [.native ⟨"user", "hi"⟩] []
        ⟨some ["toolschema"], none, none, none, none⟩ true false "m"
        (fun _ => "J") = .ok mistralJsonExampleResult ∧
      mistralJsonExampleResult.kwargs.tools = none) ∧
    (vertex_setup_call [⟨"user", ["hi"]⟩] []
        ⟨some ["toolschema"], none, none, none⟩ true false
        (fun _ => "J") = .ok vertexJsonExampleResult ∧
      vertexJsonExampleResult.kwargs.tools = none) :=
  ⟨⟨rfl, setup_call_json_mode_drops_tools.1 [.native ⟨"user", "hi"⟩] []
      ⟨some ["toolschema"], none, none, none, none⟩ false "m"
      (fun _ => "J") mistralJsonExampleResult rfl⟩,
   ⟨rfl, setup_call_json_mode_drops_tools.2 [⟨"user", ["hi"]⟩] []
      ⟨some ["toolschema"], none, none, none⟩ false
      (fun _ => "J") vertexJsonExampleResult rfl⟩⟩

/-! ### C5 -/

/-- C5: with `extract=True` and `json_mode=False`, both studied providers
fail before any client is constructed or network I/O attempted when the
derived tool-type list is empty (the `assert` raises first; if message
conversion failed even earlier, that error also precedes any I/O), and with
a non-empty tool-type list the request kwargs force tool use: Mistral sets
`tool_choice="any"` over the supplied extraction tools, Vertex sets a
`ToolConfig` with mode `any` allowing only the first tool's name. -/
theorem setup_call_extract_forces_tool_use :
    (∀ (mps : List MistralInputMessage) (bk : MistralKwargs) (model : String)
        (jf : Option MistralToolType → String),
      ∃ e, mistral_setup_call mps [] bk false true model jf = .error e) ∧
    (∀ (mps : List MistralInputMessage) (bk : MistralKwargs) (model : String)
        (jf : Option MistralToolType → String) (msgs : List MistralMessage),
      convert_message_params mps = .ok msgs →
      mistral_setup_call mps [] bk false true model jf =
        .error "At least one tool must be provided for extraction.") ∧
    (∀ (mps : List MistralInputMessage) (t : MistralToolType)
        (rest : List MistralToolType) (bk : MistralKwargs) (model : String)
        (jf : Option MistralToolType → String) (r : MistralSetupResult),
      mistral_setup_call mps (t :: rest) bk false true model jf = .ok r →
        r.kwargs.tool_choice = some "any") ∧
    (∀ (msgs : List VertexContent) (bk : VertexKwargs)
        (jf : Option VertexToolType → String),
      vertex_setup_call msgs [] bk false true jf =
        .error "At least one tool must be provided for extraction.") ∧
    (∀ (msgs : List VertexContent) (t : VertexToolType)
        (rest : List VertexToolType) (bk : VertexKwargs)
        (jf : Option VertexToolType → String) (r : VertexSetupResult),
      vertex_setup_call msgs (t :: rest) bk false true jf = .ok r →
        r.kwargs.tool_config = some ⟨"any", [t.name]⟩) := by
  refine ⟨?_, ?_, ?_, ?_, ?_⟩
  · intro mps bk model jf
    unfold mistral_setup_call
    cases hc : convert_message_params mps with
    | error e => exact ⟨e, rfl⟩
    | ok msgs =>
      exact ⟨"At least one tool must be provided for extraction.", rfl⟩
  · intro mps bk model jf msgs hc
    unfold mistral_setup_call
    rw [hc]
    rfl
  · intro mps t rest bk model jf r h
    unfold mistral_setup_call at h
    cases hc : convert_message_params mps with
    | error e => simp [hc] at h
    | ok msgs =>
      simp only [hc, Bool.false_eq_true, if_false, if_true, List.isEmpty_cons,
        Except.ok.injEq] at h
      subst h
      rfl
  · intro msgs bk jf
    rfl
  · intro msgs t rest bk jf r h
    simp only [vertex_setup_call, Bool.false_eq_true, if_false, if_true,
      Except.ok.injEq] at h
    subst h
    rfl

/-- The result of the C5 Mistral non-empty-tool example invocation. -/
def mistralExtractExampleResult : MistralSetupResult :=
  ⟨[⟨"user", "hi"⟩], [⟨"Extractor"⟩],
    ⟨some ["toolschema"], none, some "any", some "m", some [⟨"user", "hi"⟩]⟩⟩

/-- The result of the C5 Vertex non-empty-tool example invocation. -/
def vertexExtractExampleResult : VertexSetupResult :=
  ⟨[⟨"user", ["hi"]⟩], [⟨"Extractor"⟩],
    ⟨none, none, some ⟨"any", ["Extractor"]⟩, some [⟨"user", ["hi"]⟩]⟩⟩

/-- Witness for C5 at concrete inputs: the empty-tool error and both forced
tool modes. -/
theorem setup_call_extract_forces_tool_use_witness :
    (mistral_setup_call [.native ⟨"user", "hi"⟩] [] ⟨none, none, none, none, none⟩
      false true "m" (fun _ => "J") =
        .error "At least one tool must be provided for extraction.") ∧
    (mistral_setup_call [.native ⟨"user", "hi"⟩] [⟨"Extractor"⟩]
        ⟨some ["toolschema"], none, none, none, none⟩ false true "m"
        (fun _ => "J") = .ok mistralExtractExampleResult ∧
      mistralExtractExampleResult.kwargs.tool_choice = some "any") ∧
    (vertex_setup_call [⟨"user", ["hi"]⟩] [] ⟨none, none, none, none⟩
      false true (fun _ => "J") =
        .error "At least one tool must be provided for extraction.") ∧
    (vertex_setup_call [⟨"user", ["hi"]⟩] [⟨"Extractor"⟩]
        ⟨none, none, none, none⟩ false true (fun _ => "J") =
        .ok vertexExtractExampleResult ∧
      vertexExtractExampleResult.kwargs.tool_config =
        some ⟨"any", ["Extractor"]⟩) :=
  ⟨setup_call_extract_forces_tool_use.2.1 [.native ⟨"user", "hi"⟩]
      ⟨none, none, none, none, none⟩ "m" (fun _ => "J") [⟨"user", "hi"⟩] rfl,
   ⟨rfl, setup_call_extract_forces_tool_use.2.2.1 [.native ⟨"user", "hi"⟩]
      ⟨"Extractor"⟩ [] ⟨some ["toolschema"], none, none, none, none⟩ "m"
      (fun _ => "J") mistralExtractExampleResult rfl⟩,
   setup_call_extract_forces_tool_use.2.2.2.1 [⟨"user", ["hi"]⟩]
      ⟨none, none, none, none⟩ (fun _ => "J"),
   ⟨rfl, setup_call_extract_forces_tool_use.2.2.2.2 [⟨"user", ["hi"]⟩]
      ⟨"Extractor"⟩ [] ⟨none, none, none, none⟩
      (fun _ => "J") vertexExtractExampleResult rfl⟩⟩

/-! ### C7 -/

/-- C7 (amended): in json mode, the Mistral `setup_call` appends the
instruction to the last message's content when that message's role is
`user` and otherwise appends a new user message carrying the stripped
instruction; the Vertex `setup_call`, however, appends the instruction to
the last message's part list regardless of that message's role and never
adds a new user message. -/
theorem setup_call_json_mode_injection_location :
    (∀ (mps : List MistralInputMessage) (tts : List MistralToolType)
        (bk : MistralKwargs) (ex : Bool) (model : String)
        (jf : Option MistralToolType → String)
        (msgs : List MistralMessage) (last : MistralMessage),
      convert_message_params mps = .ok msgs →
      msgs.getLast? = some last → last.role = "user" →
      ∀ r, mistral_setup_call mps tts bk true ex model jf = .ok r →
        r.messages =
          msgs.dropLast ++ [⟨last.role, last.content ++ jf tts.head?⟩]) ∧
    (∀ (mps : List MistralInputMessage) (tts : List MistralToolType)
        (bk : MistralKwargs) (ex : Bool) (model : String)
        (jf : Option MistralToolType → String)
        (msgs : List MistralMessage) (last : MistralMessage),
      convert_message_params mps = .ok msgs →
      msgs.getLast? = some last → last.role ≠ "user" →
      ∀ r, mistral_setup_call mps tts bk true ex model jf = .ok r →
        r.messages = msgs ++ [⟨"user", pyStrip (jf tts.head?)⟩]) ∧
    (∀ (msgs : List VertexContent) (tts : List VertexToolType)
        (bk : VertexKwargs) (ex : Bool)
        (jf : Option VertexToolType → String) (last : VertexContent),
      msgs.getLast? = some last →
      ∀ r, vertex_setup_call msgs tts bk true ex jf = .ok r →
        r.messages =
          msgs.dropLast ++ [⟨last.role, last.parts ++ [jf tts.head?]⟩]) := by
  refine ⟨?_, ?_, ?_⟩
  · intro mps tts bk ex model jf msgs last hc hl hrole r h
    unfold mistral_setup_call at h
    simp only [hc, mistralInjectJson, hl, hrole, beq_self_eq_true, if_true,
      Except.ok.injEq] at h
    subst h
    rw [hrole]
  · intro mps tts bk ex model jf msgs last hc hl hrole r h
    unfold mistral_setup_call at h
    simp only [hc, mistralInjectJson, hl] at h
    rw [if_neg (fun hcontra => hrole (eq_of_beq hcontra))] at h
    simp only [if_true, Except.ok.injEq] at h
    subst h
    rfl
  · intro msgs tts bk ex jf last hl r h
    unfold vertex_setup_call at h
    simp only [hl, if_true, Except.ok.injEq] at h
    subst h
    rfl

/-- Counterexample for C7 as stated: a Vertex json-mode invocation whose
(converted) message list ends with a `model`-role turn.  The instruction
`"JSON"` is appended to that model turn's parts and the resulting message
list contains no `user` role at all, so the instruction was neither
injected into a final user turn nor appended as a new user message. -/
theorem setup_call_json_mode_injection_counterexample :
    (vertex_setup_call [⟨"model", ["p"]⟩] [] ⟨none, none, none, none⟩ true
        false (fun _ => "JSON")).map
      (fun r => r.messages) = .ok [⟨"model", ["p", "JSON"]⟩] ∧
    (vertex_setup_call [⟨"model", ["p"]⟩] [] ⟨none, none, none, none⟩ true
        false (fun _ => "JSON")).map
      (fun r => r.messages.map (fun m => m.role)) = .ok ["model"] :=
  ⟨rfl, rfl⟩

/-- The result of the C7 Mistral user-last example invocation. -/
def mistralInjectUserResult : MistralSetupResult :=
  ⟨[⟨"user", "hiJ"⟩], [],
    ⟨none, some "json_object", none, some "m", some [⟨"user", "hiJ"⟩]⟩⟩

/-- The result of the C7 Mistral assistant-last example invocation. -/
def mistralInjectAssistantResult : MistralSetupResult :=
  ⟨[⟨"assistant", "hi"⟩, ⟨"user", "J"⟩], [],
    ⟨none, some "json_object", none, some "m",
      some [⟨"assistant", "hi"⟩, ⟨"user", "J"⟩]⟩⟩

/-- The result of the C7 Vertex example invocation. -/
def vertexInjectResult : VertexSetupResult :=
  ⟨[⟨"model", ["p", " J "]⟩], [],
    ⟨none, some ⟨some "application/json"⟩, none,
      some [⟨"model", ["p", " J "]⟩]⟩⟩

/-- Witness for C7 (amended) at concrete inputs: a user-last and an
assistant-last Mistral conversation (note the stripped instruction in the
appended user message) and a model-last Vertex conversation (note the
unstripped instruction appended to the model turn's parts). -/
theorem setup_call_json_mode_injection_location_witness :
    (mistral_setup_call [.native ⟨"user", "hi"⟩] []
        ⟨none, none, none, none, none⟩ true false "m" (fun _ => "J") =
      .ok mistralInjectUserResult ∧
      mistralInjectUserResult.messages = [⟨"user", "hiJ"⟩]) ∧
    (mistral_setup_call [.native ⟨"assistant", "hi"⟩] []
        ⟨none, none, none, none, none⟩ true false "m" (fun _ => " J ") =
      .ok mistralInjectAssistantResult ∧
      mistralInjectAssistantResult.messages =
        [⟨"assistant", "hi"⟩, ⟨"user", "J"⟩]) ∧
    (vertex_setup_call [⟨"model", ["p"]⟩] [] ⟨none, none, none, none⟩ true
        false (fun _ => " J ") = .ok vertexInjectResult ∧
      vertexInjectResult.messages = [⟨"model", ["p", " J "]⟩]) :=
  ⟨⟨rfl, setup_call_json_mode_injection_location.1 [.native ⟨"user", "hi"⟩]
      [] ⟨none, none, none, none, none⟩ false "m" (fun _ => "J")
      [⟨"user", "hi"⟩] ⟨"user", "hi"⟩ rfl rfl rfl
      mistralInjectUserResult rfl⟩,
   ⟨rfl, setup_call_json_mode_injection_location.2.1
      [.native ⟨"assistant", "hi"⟩] [] ⟨none, none, none, none, none⟩ false
      "m" (fun _ => " J ") [⟨"assistant", "hi"⟩] ⟨"assistant", "hi"⟩ rfl rfl
      (by decide) mistralInjectAssistantResult rfl⟩,
   ⟨rfl, setup_call_json_mode_injection_location.2.2 [⟨"model", ["p"]⟩] []
      ⟨none, none, none, none⟩ false (fun _ => " J ") ⟨"model", ["p"]⟩ rfl
      vertexInjectResult rfl⟩⟩

/-! ### C3 and C9: the `tools` accessor -/

/-- The inner tool-resolution loop resolves a call only against a listed
tool type whose name matches the provider-reported function name. -/
theorem extractLoopInner_sound (tc : OAIToolCall) (tts : List OAIToolType)
    (rt : OAIResolvedTool) (h : extractLoopInner tc tts = .ok (some rt)) :
    rt.tool_type ∈ tts ∧ rt.tool_call = tc ∧
      tc.function.name = rt.tool_type.name := by
  induction tts with
  | nil => simp [extractLoopInner] at h
  | cons tt rest ih =>
    by_cases hn : tc.function.name == tt.name
    · rw [extractLoopInner, if_pos hn] at h
      unfold OAIToolType.from_tool_call at h
      by_cases hv : tt.validArgs tc.function.arguments
      · rw [if_pos hv] at h
        obtain rfl : OAIResolvedTool.mk tt tc = rt := by simpa using h
        exact ⟨List.mem_cons_self tt rest, rfl, eq_of_beq hn⟩
      · rw [if_neg hv] at h
        simp at h
    · rw [extractLoopInner, if_neg hn] at h
      obtain ⟨h1, h2, h3⟩ := ih h
      exact ⟨List.mem_cons_of_mem tt h1, h2, h3⟩

/-- Every tool the outer loop emits was resolved by the inner loop against
the active tool-type list: its name matches its tool type, which is listed,
and its call is one of the provider's calls. -/
theorem extractLoop_sound (tcs : List OAIToolCall) (tts : List OAIToolType)
    (rt : OAIResolvedTool) :
    ∀ l : List OAIResolvedTool, extractLoop tcs tts = .ok l → rt ∈ l →
      rt.tool_type ∈ tts ∧ rt.tool_call ∈ tcs ∧
        rt.tool_call.function.name = rt.tool_type.name := by
  induction tcs with
  | nil =>
    intro l hl h
    simp only [extractLoop, Except.ok.injEq] at hl
    rw [← hl] at h
    simp at h
  | cons tc rest ih =>
    intro l hl h
    rw [extractLoop] at hl
    cases hi : extractLoopInner tc tts with
    | error e => rw [hi] at hl; exact absurd hl (by simp)
    | ok o =>
      cases o with
      | none =>
        rw [hi] at hl
        obtain ⟨h1, h2, h3⟩ := ih l hl h
        exact ⟨h1, List.mem_cons_of_mem tc h2, h3⟩
      | some t =>
        rw [hi] at hl
        cases hr : extractLoop rest tts with
        | error e => rw [hr] at hl; exact absurd hl (by simp)
        | ok l' =>
          rw [hr] at hl
          simp only [Except.ok.injEq] at hl
          rw [← hl] at h
          rcases List.mem_cons.mp h with h | h
          · subst h
            obtain ⟨h1, h2, h3⟩ := extractLoopInner_sound tc tts rt hi
            rw [h2]
            exact ⟨h1, List.mem_cons_self tc rest, h3⟩
          · obtain ⟨h1, h2, h3⟩ := ih l' hr h
            exact ⟨h1, List.mem_cons_of_mem tc h2, h3⟩

/-- C3 (amended): a tool call whose function name is absent from the active
tool list is silently omitted from the `tools` accessor's result; neither
the accessor nor wrapper construction raises any error (no
`UnknownToolError` exists in the code).  The accessor result, when it is a
list, contains only calls resolved against a listed tool type with a
matching name. -/
theorem tools_accessor_silently_omits_unknown (c : OpenAIChatCompletion)
    (l : List OAIResolvedTool) (h : c.tools = .ok (some l)) :
    (∀ rt ∈ l, rt.tool_type ∈ c.tool_types.getD [] ∧
      rt.tool_call.function.name = rt.tool_type.name) ∧
    (∀ tc : OAIToolCall,
      (∀ tt ∈ c.tool_types.getD [], tt.name ≠ tc.function.name) →
      ∀ rt ∈ l, rt.tool_call ≠ tc) := by
  have hmem : ∀ rt ∈ l, rt.tool_type ∈ c.tool_types.getD [] ∧
      rt.tool_call.function.name = rt.tool_type.name := by
    intro rt hrt
    unfold OpenAIChatCompletion.tools at h
    by_cases ht : optListTruthy c.tool_types = false
    · simp [ht] at h
    · rw [if_neg ht] at h
      cases ha : c.toolCallsAcc with
      | error e => rw [ha] at h; exact absurd h (by simp)
      | ok tcs =>
        simp only [ha] at h
        by_cases ht2 : optListTruthy tcs = false
        · simp [ht2] at h
        · rw [if_neg ht2] at h
          cases he : extractLoop (tcs.getD []) (c.tool_types.getD []) with
          | error e => rw [he] at h; exact absurd h (by simp)
          | ok l' =>
            rw [he] at h
            simp only [Except.ok.injEq, Option.some.injEq] at h
            rw [h] at he
            obtain ⟨h1, _, h3⟩ := extractLoop_sound _ _ rt l he hrt
            exact ⟨h1, h3⟩
  refine ⟨hmem, ?_⟩
  intro tc hno rt hrt heq
  obtain ⟨h1, h3⟩ := hmem rt hrt
  rw [heq] at h3
  exact hno rt.tool_type h1 h3.symm

/-- The concrete scenario of the spec's `UnknownToolError` bullet: the
response names `lookup_weather` while the only active tool type is
`recommend_book` (its validator rejects everything, demonstrating that an
unmatched call never even reaches `from_tool_call`). -/
def unknownToolCompletion : OpenAIChatCompletion :=
  ⟨⟨[⟨⟨none, some [⟨"call1", ⟨"lookup_weather", "city: SF"⟩⟩]⟩⟩]⟩,
   some [⟨"recommend_book", fun _ => false⟩]⟩

/-- Counterexample for C3 as stated: accessing `tools` (and `tool`) on a
completion whose only tool call names a function absent from the active
tool list returns normally (an empty resolved list / `None`); no
`UnknownToolError` — or any error — is raised. -/
theorem tools_accessor_unknown_tool_counterexample :
    unknownToolCompletion.tools = .ok (some []) ∧
    unknownToolCompletion.tool = .ok none := by
  constructor <;> rfl

/-- A completion carrying one unknown (`lookup_weather`) and one matching
(`recommend_book`) tool call; the matching tool type's validator accepts
the call's concrete argument string. -/
def mixedToolCompletion : OpenAIChatCompletion :=
  ⟨⟨[⟨⟨none, some [⟨"call1", ⟨"lookup_weather", "city: SF"⟩⟩,
      ⟨"call2", ⟨"recommend_book", "genre: fantasy"⟩⟩]⟩⟩]⟩,
   some [⟨"recommend_book", fun args => args == "genre: fantasy"⟩]⟩

/-- Witness for C3 (amended) at a concrete input: a completion carrying one
matching, validating call and one unknown call yields exactly the matching
resolution, and the unknown call is omitted. -/
theorem tools_accessor_silently_omits_unknown_witness :
    mixedToolCompletion.tools = .ok (some
      [⟨⟨"recommend_book", fun args => args == "genre: fantasy"⟩,
        ⟨"call2", ⟨"recommend_book", "genre: fantasy"⟩⟩⟩]) ∧
    (∀ rt ∈ [(⟨⟨"recommend_book", fun args => args == "genre: fantasy"⟩,
        ⟨"call2", ⟨"recommend_book", "genre: fantasy"⟩⟩⟩ : OAIResolvedTool)],
      rt.tool_call ≠ ⟨"call1", ⟨"lookup_weather", "city: SF"⟩⟩) :=
  ⟨rfl,
   (tools_accessor_silently_omits_unknown mixedToolCompletion _ rfl).2
     ⟨"call1", ⟨"lookup_weather", "city: SF"⟩⟩ (by decide)⟩

/-- C6: converting a neutral message to the text-only Mistral format
succeeds for plain-string content and for a single text part (keeping role
and text), and raises the descriptive `ValueError` for any part list that
is not exactly one text part — both for the message alone and for any
message list containing such a message (no part is ever silently dropped). -/
theorem convert_message_params_text_only :
    (∀ (role s : String),
      convertOneMessageParam (.base ⟨role, .str s⟩) = .ok ⟨role, s⟩) ∧
    (∀ (role t : String),
      convertOneMessageParam (.base ⟨role, .parts [.text t]⟩) =
        .ok ⟨role, t⟩) ∧
    (∀ (role : String) (ps : List ContentPart),
      (∀ t, ps ≠ [.text t]) →
      convertOneMessageParam (.base ⟨role, .parts ps⟩) =
        .error "Mistral currently only supports text parts.") ∧
    (∀ (msgs : List MistralInputMessage) (role : String)
        (ps : List ContentPart),
      (∀ t, ps ≠ [.text t]) →
      MistralInputMessage.base ⟨role, .parts ps⟩ ∈ msgs →
      convert_message_params msgs =
        .error "Mistral currently only supports text parts.") := by
  have hone : ∀ (role : String) (ps : List ContentPart),
      (∀ t, ps ≠ [.text t]) →
      convertOneMessageParam (.base ⟨role, .parts ps⟩) =
        .error "Mistral currently only supports text parts." := by
    intro role ps hps
    cases ps with
    | nil => rfl
    | cons p rest =>
      cases p with
      | text t =>
        cases rest with
        | nil => exact absurd rfl (hps t)
        | cons q qs => rfl
      | image d => rfl
  refine ⟨fun role s => rfl, fun role t => rfl, hone, ?_⟩
  intro msgs role ps hps hmem
  induction msgs with
  | nil => simp at hmem
  | cons m rest ih =>
    rcases List.mem_cons.mp hmem with hm | hm
    · rw [convert_message_params, ← hm, hone role ps hps]
    · rw [convert_message_params]
      cases hc : convertOneMessageParam m with
      | error e => rw [convertOneMessageParam_error m e hc]
      | ok c => rw [ih hm]

/-- Witness for C6 at concrete inputs: a plain string and a single text
part convert; an image part and a two-text-part list raise, alone and
inside a list. -/
theorem convert_message_params_text_only_witness :
    convertOneMessageParam (.base ⟨"user", .str "hi"⟩) = .ok ⟨"user", "hi"⟩ ∧
    convertOneMessageParam (.base ⟨"user", .parts [.text "hi"]⟩) =
      .ok ⟨"user", "hi"⟩ ∧
    convertOneMessageParam (.base ⟨"user", .parts [.image "img"]⟩) =
      .error "Mistral currently only supports text parts." ∧
    convertOneMessageParam (.base ⟨"user", .parts [.text "a", .text "b"]⟩) =
      .error "Mistral currently only supports text parts." ∧
    convert_message_params [.native ⟨"system", "s"⟩,
        .base ⟨"user", .parts [.image "img"]⟩] =
      .error "Mistral currently only supports text parts." :=
  ⟨convert_message_params_text_only.1 "user" "hi",
   convert_message_params_text_only.2.1 "user" "hi",
   convert_message_params_text_only.2.2.1 "user" [.image "img"] (by simp),
   convert_message_params_text_only.2.2.1 "user" [.text "a", .text "b"]
     (by simp),
   convert_message_params_text_only.2.2.2
     [.native ⟨"system", "s"⟩, .base ⟨"user", .parts [.image "img"]⟩]
     "user" [.image "img"] (by simp) (by simp)⟩

/-! ### C8 -/

/-- C8: every chunk-wrapper accessor is a total function of the raw chunk
(each is a plain Lean function below, so none can raise), and on chunks
that omit the corresponding field each returns the documented default:
`""` for content with no choices or no content delta, `[]`/`None` for
finish reasons, `None` for usage and token counts (Cohere's `model` is
always `None`, and its id/usage/finish fields are `None` away from the
start/end events). -/
theorem chunk_accessors_total_defaults :
    (∀ c : OpenAICallResponseChunk, c.chunk.choices = [] →
      c.content = "" ∧ c.finish_reasons = []) ∧
    (∀ (c : OpenAICallResponseChunk) (ch : OAIChunkChoice)
        (rest : List OAIChunkChoice), c.chunk.choices = ch :: rest →
      (ch.delta.content = none ∨ ch.delta.content = some "") →
      c.content = "") ∧
    (∀ c : OpenAICallResponseChunk, c.chunk.usage = none →
      c.usage = none ∧ c.input_tokens = none ∧ c.output_tokens = none) ∧
    (∀ c : OpenAICallResponseChunk,
      (∀ ch ∈ c.chunk.choices, ch.finish_reason = none) →
      c.finish_reasons = []) ∧
    (∀ c : CohereCallResponseChunk, c.model = none) ∧
    (∀ c : CohereCallResponseChunk,
      (∀ fr resp, c.chunk ≠ .streamEnd fr resp) →
      c.finish_reasons = none ∧ c.usage = none ∧ c.input_tokens = none ∧
        c.output_tokens = none) ∧
    (∀ c : CohereCallResponseChunk, (∀ t, c.chunk ≠ .textGeneration t) →
      c.content = "") ∧
    (∀ c : CohereCallResponseChunk, c.chunk = .otherEvent →
      c.respId = none) ∧
    (∀ c : CohereCallResponseChunk, c.usage = none →
      c.input_tokens = none ∧ c.output_tokens = none) := by
  refine ⟨?_, ?_, ?_, ?_, fun c => rfl, ?_, ?_, ?_, ?_⟩
  · intro c h
    constructor
    · unfold OpenAICallResponseChunk.content
      rw [h]
      rfl
    · unfold OpenAICallResponseChunk.finish_reasons
      rw [h]
      rfl
  · intro c ch rest h hd
    unfold OpenAICallResponseChunk.content
    rw [h]
    rcases hd with hd | hd <;> simp [hd]
  · intro c h
    have hu : c.usage = none := h
    exact ⟨hu, by unfold OpenAICallResponseChunk.input_tokens; rw [hu],
      by unfold OpenAICallResponseChunk.output_tokens; rw [hu]⟩
  · intro c h
    unfold OpenAICallResponseChunk.finish_reasons
    rw [List.filterMap_eq_nil_iff]
    intro ch hch
    rw [h ch hch]
  · intro c h
    cases hc : c.chunk with
    | streamEnd fr resp => exact absurd hc (h fr resp)
    | streamStart gid =>
      refine ⟨?_, ?_, ?_, ?_⟩ <;>
        simp [CohereCallResponseChunk.finish_reasons,
          CohereCallResponseChunk.usage, CohereCallResponseChunk.input_tokens,
          CohereCallResponseChunk.output_tokens, hc]
    | textGeneration t =>
      refine ⟨?_, ?_, ?_, ?_⟩ <;>
        simp [CohereCallResponseChunk.finish_reasons,
          CohereCallResponseChunk.usage, CohereCallResponseChunk.input_tokens,
          CohereCallResponseChunk.output_tokens, hc]
    | otherEvent =>
      refine ⟨?_, ?_, ?_, ?_⟩ <;>
        simp [CohereCallResponseChunk.finish_reasons,
          CohereCallResponseChunk.usage, CohereCallResponseChunk.input_tokens,
          CohereCallResponseChunk.output_tokens, hc]
  · intro c h
    unfold CohereCallResponseChunk.content
    cases hc : c.chunk with
    | textGeneration t => exact absurd hc (h t)
    | streamStart gid => rfl
    | streamEnd fr resp => rfl
    | otherEvent => rfl
  · intro c h
    unfold CohereCallResponseChunk.respId
    rw [h]
  · intro c h
    exact ⟨by unfold CohereCallResponseChunk.input_tokens; rw [h],
      by unfold CohereCallResponseChunk.output_tokens; rw [h]⟩

/-- Witness for C8 at concrete inputs: an OpenAI chunk with no choices and
no usage, and a Cohere non-end event. -/
theorem chunk_accessors_total_defaults_witness :
    (OpenAICallResponseChunk.mk ⟨"id0", [], "gpt", none⟩).content = "" ∧
    (OpenAICallResponseChunk.mk ⟨"id0", [], "gpt", none⟩).finish_reasons
      = [] ∧
    (OpenAICallResponseChunk.mk ⟨"id0", [], "gpt", none⟩).input_tokens
      = none ∧
    (CohereCallResponseChunk.mk .otherEvent).content = "" ∧
    (CohereCallResponseChunk.mk .otherEvent).model = none ∧
    (CohereCallResponseChunk.mk .otherEvent).usage = none :=
  ⟨(chunk_accessors_total_defaults.1 ⟨⟨"id0", [], "gpt", none⟩⟩ rfl).1,
   (chunk_accessors_total_defaults.1 ⟨⟨"id0", [], "gpt", none⟩⟩ rfl).2,
   (chunk_accessors_total_defaults.2.2.1 ⟨⟨"id0", [], "gpt", none⟩⟩ rfl).2.1,
   chunk_accessors_total_defaults.2.2.2.2.2.2.1 ⟨.otherEvent⟩ (by simp),
   chunk_accessors_total_defaults.2.2.2.2.1 ⟨.otherEvent⟩,
   (chunk_accessors_total_defaults.2.2.2.2.2.1 ⟨.otherEvent⟩
     (by simp)).2.1⟩

/-! ### C10 -/

/-- The claim's recognized-key set, spelled as in the claim. -/
def mistralAllowedKeys : List String :=
  ["temperature", "max_tokens", "top_p", "seed", "stop"]

/-- The claim's renaming: `seed` becomes `random_seed`, every other key is
preserved. -/
def mistralRenameKey (k : String) : String :=
  if k == "seed" then "random_seed" else k

/-- Looking a key up in `MISTRAL_PARAM_MAPPING` is exactly membership in
the claim's key set plus its renaming. -/
theorem mistral_mapping_find_eq (k : String) :
    MISTRAL_PARAM_MAPPING.find? (fun p => p.1 == k) =
      if k ∈ mistralAllowedKeys then some (k, mistralRenameKey k)
      else none := by
  by_cases h1 : k = "temperature"
  · subst h1; decide
  by_cases h2 : k = "max_tokens"
  · subst h2; decide
  by_cases h3 : k = "top_p"
  · subst h3; decide
  by_cases h4 : k = "seed"
  · subst h4; decide
  by_cases h5 : k = "stop"
  · subst h5; decide
  rw [if_neg (by simp [mistralAllowedKeys, h1, h2, h3, h4, h5])]
  have e1 : ("temperature" == k) = false := beq_eq_false_iff_ne.mpr (Ne.symm h1)
  have e2 : ("max_tokens" == k) = false := beq_eq_false_iff_ne.mpr (Ne.symm h2)
  have e3 : ("top_p" == k) = false := beq_eq_false_iff_ne.mpr (Ne.symm h3)
  have e4 : ("seed" == k) = false := beq_eq_false_iff_ne.mpr (Ne.symm h4)
  have e5 : ("stop" == k) = false := beq_eq_false_iff_ne.mpr (Ne.symm h5)
  simp [MISTRAL_PARAM_MAPPING, List.find?, e1, e2, e3, e4, e5]

/-- C10: the Mistral common-parameter conversion returns exactly the
entries whose key is one of `temperature`, `max_tokens`, `top_p`, `seed`,
`stop` and whose value is not `None`, with `seed` renamed to `random_seed`
and every other key preserved, in input order; unrecognized keys and
`None`-valued entries are dropped. -/
theorem convert_common_params_characterization {α : Type}
    (cp : List (String × Option α)) :
    convert_common_params cp = cp.filterMap (fun kv =>
      match kv.2 with
      | some v =>
        if kv.1 ∈ mistralAllowedKeys then some (mistralRenameKey kv.1, v)
        else none
      | none => none) := by
  induction cp with
  | nil => rfl
  | cons kv rest ih =>
    rw [convert_common_params, List.filterMap_cons, List.filterMap_cons,
      mistral_mapping_find_eq]
    rw [convert_common_params] at ih
    cases hv : kv.2 with
    | none => by_cases hk : kv.1 ∈ mistralAllowedKeys <;> simp [hk, ih]
    | some v => by_cases hk : kv.1 ∈ mistralAllowedKeys <;> simp [hk, ih]

/-! ### C4 -/

/-- Consuming chunks from an arbitrary starting state appends the
concatenated deltas and the completed tool calls. -/
theorem specConsume_from (st : SpecStreamState) (chunks : List SpecChunk) :
    chunks.foldl specStreamStep st =
      ⟨st.accumulated_content ++
        String.join (chunks.map (fun c => c.content_delta)),
       st.completed_tool_calls ++
        chunks.filterMap (fun c => c.tool_call)⟩ := by
  induction chunks generalizing st with
  | nil => cases st with | mk a b => simp [String.join]
  | cons c rest ih =>
    rw [List.foldl_cons, ih]
    unfold specStreamStep
    cases hc : c.tool_call with
    | none =>
      simp [String.join_eq, List.filterMap_cons, hc, String.ext_iff]
    | some t =>
      simp [String.join_eq, List.filterMap_cons, hc, String.ext_iff]

/-- C4: stream accumulation is a concatenation homomorphism over chunk
order — consuming any finite chunk sequence yields an accumulated content
equal to the in-order concatenation of the chunks' content deltas, and the
terminal synthesized assistant `message_param` carries exactly that string
together with all completed tool calls, in order. -/
theorem stream_accumulation_concat (chunks : List SpecChunk) :
    (specConsume chunks).accumulated_content =
      String.join (chunks.map (fun c => c.content_delta)) ∧
    specMessageParam chunks =
      ⟨"assistant", String.join (chunks.map (fun c => c.content_delta)),
       chunks.filterMap (fun c => c.tool_call)⟩ := by
  have h := specConsume_from ⟨"", []⟩ chunks
  unfold specConsume specMessageParam specConsume
  rw [h]
  constructor
  · simp [String.ext_iff]
  · simp [SpecMessage.mk.injEq, String.ext_iff]

end Mirascope
